import Mathlib

/-!
Verification of the Cinder JIT controller, a shallow embedding of
src/Jit/pyjit.cpp.  Global mutable state of the translation unit is collected
in the structure JITState; each exported function of pyjit.cpp becomes a Lean
function from (its arguments and) a JITState to its result and the updated
JITState.  C int values that the source uses as booleans are modelled as Bool;
wall-clock durations are modelled as Nat time units supplied as explicit
parameters.  Components that live outside pyjit.cpp (the JitList container,
the _PyJITContext record map, the back-end compiler) are modelled from the
specification and are marked as such in their doc comments.
-/

set_option linter.unusedVariables false

namespace Cinder

/-- The InitState enum of pyjit.cpp (line 31). -/
inductive InitState
  | JIT_NOT_INITIALIZED
  | JIT_INITIALIZED
  | JIT_FINALIZED
deriving DecidableEq, Repr

/-- The FrameMode enum of pyjit.cpp (line 32). -/
inductive FrameMode
  | PY_FRAME
  | TINY_FRAME
  | NO_FRAME
deriving DecidableEq, Repr

/-- The _PyJIT_Result taxonomy used by pyjit.cpp (spec section 4.2). -/
inductive PyJITResult
  | PYJIT_RESULT_OK
  | PYJIT_RESULT_CANNOT_SPECIALIZE
  | PYJIT_RESULT_RETRY
  | PYJIT_RESULT_UNKNOWN_ERROR
  | PYJIT_NOT_INITIALIZED
deriving DecidableEq, Repr

open InitState FrameMode PyJITResult

/-- A code object: an identity plus the two co_flags bits pyjit.cpp reads
(CO_STATICALLY_COMPILED and CO_NORMAL_FRAME).  Identity is by the cid field,
standing for pointer identity. -/
structure PyCodeObject where
  cid : Nat
  co_statically_compiled : Bool
  co_normal_frame : Bool
deriving DecidableEq, Repr

/-- A function object: identity (fid, standing for pointer identity), its code
object, and the module/qualname pair that JitList lookup consults. -/
structure PyFunctionObject where
  fid : Nat
  func_code : PyCodeObject
  module_name : String
  qualname : String
deriving DecidableEq, Repr

/-- Modelled from the spec: the JitList container (jit_list.h / jit_list.cpp
are not among the sources under verification).  Entries are
(module, qualname) pairs; the wildcard variant additionally matches entries
whose module component is the token "*" (spec sections 4.1 and 6). -/
structure JITList where
  wildcard : Bool
  entries : List (String × String)
deriving DecidableEq, Repr

/-- Modelled from the spec: JitList lookup (spec section 4.1). -/
def JITList.lookup (jl : JITList) (func : PyFunctionObject) : Bool :=
  decide ((func.module_name, func.qualname) ∈ jl.entries) ||
    (jl.wildcard && decide (("*", func.qualname) ∈ jl.entries))

/-- Modelled from the spec: the per-function compilation record held by the
_PyJITContext (spec section 3; jit_context.cpp is not among the sources under
verification). -/
structure CompRecord where
  codeSize : Nat
  stackSize : Nat
  spillStackSize : Nat
deriving DecidableEq, Repr

/-- Modelled from the spec: the _PyJITContext record map, keyed by function
handle (spec section 4.2). -/
structure CompileContext where
  records : List (PyFunctionObject × CompRecord)
deriving DecidableEq, Repr

/-- Association-list lookup keyed by function identity. -/
def alistLookup {β : Type} : List (PyFunctionObject × β) → PyFunctionObject → Option β
  | [], _ => none
  | (g, v) :: rest, f => if g = f then some v else alistLookup rest f

/-- Association-list insert-if-absent, the semantics of
std::unordered_map::emplace, which does not overwrite an existing key. -/
def alistEmplace {β : Type} : List (PyFunctionObject × β) → PyFunctionObject → β → List (PyFunctionObject × β)
  | [], f, v => [(f, v)]
  | (g, w) :: rest, f, v =>
      if g = f then (g, w) :: rest else (g, w) :: alistEmplace rest f v

/-- Modelled from the spec: _PyJITContext_DidCompile, a lookup in the record
map (spec section 4.2). -/
def CompileContext.didCompile (ctx : CompileContext) (func : PyFunctionObject) : Bool :=
  (alistLookup ctx.records func).isSome

/-- Modelled from the spec: code-size query over the record map. -/
def CompileContext.codeSizeOf (ctx : CompileContext) (func : PyFunctionObject) : Nat :=
  match alistLookup ctx.records func with
  | some r => r.codeSize
  | none => 0

/-- Modelled from the spec: stack-size query over the record map. -/
def CompileContext.stackSizeOf (ctx : CompileContext) (func : PyFunctionObject) : Nat :=
  match alistLookup ctx.records func with
  | some r => r.stackSize
  | none => 0

/-- Modelled from the spec: spill-stack-size query over the record map. -/
def CompileContext.spillStackSizeOf (ctx : CompileContext) (func : PyFunctionObject) : Nat :=
  match alistLookup ctx.records func with
  | some r => r.spillStackSize
  | none => 0

/-- std::unordered_set insert: a no-op when the element is already present. -/
def setInsert (l : List PyFunctionObject) (f : PyFunctionObject) : List PyFunctionObject :=
  if f ∈ l then l else l ++ [f]

/-- std::unordered_set erase: removes the element if present. -/
def setErase (l : List PyFunctionObject) (f : PyFunctionObject) : List PyFunctionObject :=
  l.filter (fun g => decide (g ≠ f))

/-- The JitConfig struct of pyjit.cpp (lines 34-44). -/
structure JitConfig where
  init_state : InitState
  is_enabled : Bool
  frame_mode : FrameMode
  are_type_slots_enabled : Bool
  allow_jit_list_wildcards : Bool
  compile_all_static_functions : Bool
  batch_compile_workers : Nat
  test_multithreaded_compile : Bool
deriving DecidableEq, Repr

/-- The logging and dumping globals that _PyJIT_Initialize mutates (they live
in Jit/log.h and Jit/jit_gdb_support.h; only their mutation by pyjit.cpp is
relevant here). -/
structure DebugGlobals where
  g_debug : Bool
  g_debug_verbose : Bool
  g_debug_refcount : Bool
  g_dump_hir : Bool
  g_dump_hir_passes : Bool
  g_dump_final_hir : Bool
  g_dump_lir : Bool
  g_dump_lir_no_origin : Bool
  g_disas_funcs : Bool
  g_gdb_support : Bool
  g_gdb_stubs_support : Bool
  g_gdb_write_elf_objects : Bool
deriving DecidableEq, Repr

/-- The global mutable state of pyjit.cpp (lines 45-54 and 773): jit_config,
jit_ctx, g_jit_list, jit_reg_functions, test_multithreaded_funcs,
jit_time_functions, total_compliation_time (spelling as in the source), the
static active_compiles vector of _PyJIT_CompileFunction, the debug globals and
g_log_file. -/
structure JITState where
  config : JitConfig
  jit_ctx : Option CompileContext
  g_jit_list : Option JITList
  jit_reg_functions : List PyFunctionObject
  test_multithreaded_funcs : List PyFunctionObject
  jit_time_functions : List (PyFunctionObject × Nat)
  total_compliation_time : Nat
  active_compiles : List PyCodeObject
  dbg : DebugGlobals
  g_log_file : Option String
deriving DecidableEq, Repr

/-- The static initial value of JitConfig (pyjit.cpp lines 34-44). -/
def JitConfig.initial : JitConfig :=
  { init_state := JIT_NOT_INITIALIZED
    is_enabled := false
    frame_mode := PY_FRAME
    are_type_slots_enabled := false
    allow_jit_list_wildcards := false
    compile_all_static_functions := false
    batch_compile_workers := 0
    test_multithreaded_compile := false }

/-- All debug globals start cleared. -/
def DebugGlobals.initial : DebugGlobals :=
  { g_debug := false, g_debug_verbose := false, g_debug_refcount := false
    g_dump_hir := false, g_dump_hir_passes := false, g_dump_final_hir := false
    g_dump_lir := false, g_dump_lir_no_origin := false, g_disas_funcs := false
    g_gdb_support := false, g_gdb_stubs_support := false
    g_gdb_write_elf_objects := false }

/-- The process-start state of the translation unit. -/
def JITState.initial : JITState :=
  { config := JitConfig.initial
    jit_ctx := none
    g_jit_list := none
    jit_reg_functions := []
    test_multithreaded_funcs := []
    jit_time_functions := []
    total_compliation_time := 0
    active_compiles := []
    dbg := DebugGlobals.initial
    g_log_file := none }

/-- _PyJIT_OnJitList (pyjit.cpp lines 475-484): accept when there is no jit
list, or when the function is statically compiled and
compile_all_static_functions is set; otherwise defer to JitList lookup. -/
def _PyJIT_OnJitList (s : JITState) (func : PyFunctionObject) : Bool :=
  let is_static := func.func_code.co_statically_compiled
  match s.g_jit_list with
  | none => true
  | some jl =>
      if is_static && s.config.compile_all_static_functions then true
      else jl.lookup func

/-- _PyJIT_IsCompiled (pyjit.cpp lines 225-234).  The PyFunction_Check guard
is vacuous here because the argument type admits only function objects. -/
def _PyJIT_IsCompiled (s : JITState) (func : PyFunctionObject) : Bool :=
  match s.jit_ctx with
  | none => false
  | some ctx => ctx.didCompile func

/-- _PyJIT_IsEnabled (pyjit.cpp lines 715-717). -/
def _PyJIT_IsEnabled (s : JITState) : Bool :=
  decide (s.config.init_state = JIT_INITIALIZED) && s.config.is_enabled

/-- _PyJIT_AreTypeSlotsEnabled (pyjit.cpp lines 723-726). -/
def _PyJIT_AreTypeSlotsEnabled (s : JITState) : Bool :=
  decide (s.config.init_state = JIT_INITIALIZED) && s.config.are_type_slots_enabled

/-- _PyJIT_Enable (pyjit.cpp lines 728-734). -/
def _PyJIT_Enable (s : JITState) : Int × JITState :=
  if s.config.init_state ≠ JIT_INITIALIZED then (0, s)
  else (0, { s with config := { s.config with is_enabled := true } })

/-- _PyJIT_Disable (pyjit.cpp lines 744-747). -/
def _PyJIT_Disable (s : JITState) : JITState :=
  { s with config := { s.config with is_enabled := false, are_type_slots_enabled := false } }

/-- _PyJIT_EnableTypeSlots (pyjit.cpp lines 736-742). -/
def _PyJIT_EnableTypeSlots (s : JITState) : Int × JITState :=
  if _PyJIT_IsEnabled s then
    (1, { s with config := { s.config with are_type_slots_enabled := true } })
  else (0, s)

/-- _PyJIT_TinyFrame (pyjit.cpp lines 827-829). -/
def _PyJIT_TinyFrame (s : JITState) : Bool :=
  decide (s.config.frame_mode = TINY_FRAME)

/-- _PyJIT_NoFrame (pyjit.cpp lines 831-833). -/
def _PyJIT_NoFrame (s : JITState) : Bool :=
  decide (s.config.frame_mode = NO_FRAME)

/-- _PyJIT_RegisterFunction (pyjit.cpp lines 790-799): when the JIT is enabled
and the function is on the jit list, append it to test_multithreaded_funcs in
test mode and insert it into the registration set; the int result 1/0 is
modelled as Bool. -/
def _PyJIT_RegisterFunction (s : JITState) (func : PyFunctionObject) : Bool × JITState :=
  if _PyJIT_IsEnabled s && _PyJIT_OnJitList s func then
    let s1 :=
      if s.config.test_multithreaded_compile then
        { s with test_multithreaded_funcs := s.test_multithreaded_funcs ++ [func] }
      else s
    (true, { s1 with jit_reg_functions := setInsert s1.jit_reg_functions func })
  else (false, s)

/-- _PyJIT_UnregisterFunction (pyjit.cpp lines 801-805). -/
def _PyJIT_UnregisterFunction (s : JITState) (func : PyFunctionObject) : JITState :=
  if _PyJIT_IsEnabled s then
    { s with jit_reg_functions := setErase s.jit_reg_functions func }
  else s

/-- The destructor of CompilationTimer (pyjit.cpp lines 60-68): add the
elapsed time to total_compliation_time and emplace it (insert-if-absent) into
jit_time_functions. -/
def recordTime (elapsed : Nat) (func : PyFunctionObject) (s : JITState) : JITState :=
  { s with total_compliation_time := s.total_compliation_time + elapsed
           jit_time_functions := alistEmplace s.jit_time_functions func elapsed }

/-- The back-end compile entry _PyJITContext_CompileFunction as seen from
pyjit.cpp: an external operation on the state.  Theorems quantify over it or
constrain it by the properties the spec assigns to the back-end
(spec section 6). -/
def Backend : Type :=
  JITState → PyFunctionObject → PyJITResult × JITState

/-- kMaxCompileDepth (pyjit.cpp line 772). -/
def kMaxCompileDepth : Nat := 10

/-- The state mutation performed by _PyJIT_CompileFunction just before it
delegates to the back-end (pyjit.cpp lines 783-784): drop the function from
the registration set and push its code object on the active-compile stack. -/
def compileEnterState (s : JITState) (func : PyFunctionObject) : JITState :=
  { s with jit_reg_functions := setErase s.jit_reg_functions func
           active_compiles := s.active_compiles ++ [func.func_code] }

/-- _PyJIT_CompileFunction (pyjit.cpp lines 755-788).  The elapsed parameter
is the wall-clock duration the CompilationTimer of this call observes; the
timer is constructed after the early didCompile / jit-list returns and its
destructor fires on the recursion-guard return and on the back-end return. -/
def _PyJIT_CompileFunction (be : Backend) (elapsed : Nat) (s : JITState)
    (func : PyFunctionObject) : PyJITResult × JITState :=
  if s.jit_ctx.isNone then (PYJIT_NOT_INITIALIZED, s)
  else if _PyJIT_IsCompiled s func then (PYJIT_RESULT_OK, s)
  else if !(_PyJIT_OnJitList s func) then (PYJIT_RESULT_CANNOT_SPECIALIZE, s)
  else if s.active_compiles.length = kMaxCompileDepth ∨ func.func_code ∈ s.active_compiles then
    (PYJIT_RESULT_UNKNOWN_ERROR, recordTime elapsed func s)
  else
    let r := be (compileEnterState s func) func
    (r.1, recordTime elapsed func { r.2 with active_compiles := r.2.active_compiles.dropLast })

/-- A nest of re-entrant _PyJIT_CompileFunction calls: the back-end of the
call for the head function re-enters the controller on the next function in
the list, and the innermost back-end returns Ok without further re-entry.
This realises the recursive-inline scenario of the recursion guard. -/
def compileChain (elapsed : Nat) : List PyFunctionObject → JITState → PyJITResult × JITState
  | [], s => (PYJIT_RESULT_OK, s)
  | f :: rest, s =>
      _PyJIT_CompileFunction (fun s1 _ => compileChain elapsed rest s1) elapsed s f

/-- _PyJIT_Finalize (pyjit.cpp lines 807-825).  The JIT_CHECK that jit_ctx is
non-null is a fatal assertion, modelled as the none outcome. -/
def _PyJIT_Finalize (s : JITState) : Option (Int × JITState) :=
  if s.config.init_state ≠ JIT_INITIALIZED then some (0, s)
  else
    let s1 := { s with g_jit_list := none
                       config := { s.config with init_state := JIT_FINALIZED } }
    if s1.jit_ctx.isNone then none
    else some (0, { s1 with jit_ctx := none })

/-- get_compilation_time (pyjit.cpp lines 303-307): total time in
milliseconds. -/
def get_compilation_time (s : JITState) : Nat :=
  s.total_compliation_time * 1000

/-- get_function_compilation_time (pyjit.cpp lines 309-320): per-function time
in milliseconds, or nil (none) when no entry exists. -/
def get_function_compilation_time (s : JITState) (func : PyFunctionObject) : Option Nat :=
  (alistLookup s.jit_time_functions func).map (fun t => t * 1000)

/-- get_jit_list (pyjit.cpp lines 290-297): nil when there is no jit list,
otherwise its contents. -/
def get_jit_list (s : JITState) : Option (List (String × String)) :=
  s.g_jit_list.map (fun jl => jl.entries)

/-- get_compiled_functions (pyjit.cpp lines 299-301).  The underlying
_PyJITContext query is modelled from the spec (a pure query over the record
map, spec section 4.2); with no context the answer is empty. -/
def get_compiled_functions (s : JITState) : List PyFunctionObject :=
  match s.jit_ctx with
  | none => []
  | some ctx => ctx.records.map (fun p => p.1)

/-- get_compiled_size (pyjit.cpp lines 322-330): 0 when jit_ctx is null,
otherwise the code-size query. -/
def get_compiled_size (s : JITState) (func : PyFunctionObject) : Nat :=
  match s.jit_ctx with
  | none => 0
  | some ctx => ctx.codeSizeOf func

/-- get_compiled_stack_size (pyjit.cpp lines 332-340). -/
def get_compiled_stack_size (s : JITState) (func : PyFunctionObject) : Nat :=
  match s.jit_ctx with
  | none => 0
  | some ctx => ctx.stackSizeOf func

/-- get_compiled_spill_stack_size (pyjit.cpp lines 342-352). -/
def get_compiled_spill_stack_size (s : JITState) (func : PyFunctionObject) : Nat :=
  match s.jit_ctx with
  | none => 0
  | some ctx => ctx.spillStackSizeOf func

/-- The skip condition a batch worker re-checks under
ThreadedCompileSerialize before compiling a popped function
(compile_worker_thread, pyjit.cpp lines 85-88): skip already-compiled
functions unless in test-multithreaded mode, and skip functions not on the
jit list. -/
def workerSkipCondition (s : JITState) (func : PyFunctionObject) : Bool :=
  (!s.config.test_multithreaded_compile && _PyJIT_IsCompiled s func) ||
    !(_PyJIT_OnJitList s func)

/-- The corresponding early-return condition of the single-function path
(_PyJIT_CompileFunction, pyjit.cpp lines 764-769): return Ok when already
compiled, CannotSpecialize when not on the jit list. -/
def compileFunctionSkipCondition (s : JITState) (func : PyFunctionObject) : Bool :=
  _PyJIT_IsCompiled s func || !(_PyJIT_OnJitList s func)

/-- The JIT generator states (pyjit.h): JustStarted, Running, Completed. -/
inductive PyJitGenState
  | JustStarted
  | Running
  | Completed
deriving DecidableEq, Repr

/-- A host object reference as seen by _PyJIT_GenSend: either the None
singleton or some other object (identified by a number standing for its
address).  A C NULL is an absent Option around this type. -/
inductive PyVal
  | none_obj
  | obj (n : Nat)
deriving DecidableEq, Repr

/-- The continuation block fields of a suspended JIT generator that
_PyJIT_GenSend reads and writes (GenDataFooter): the state and the yield
point (modelled by its identity; none is a null yieldPoint pointer). -/
structure GenDataFooter where
  state : PyJitGenState
  yieldPoint : Option Nat
deriving DecidableEq, Repr

/-- The PyFrameObject fields _PyJIT_GenSend mutates. -/
structure PyFrameObject where
  f_executing : Bool
  f_lasti : Int
deriving DecidableEq, Repr

/-- The footer as updated before the resume entry is invoked
(pyjit.cpp line 850): the state becomes Running. -/
def genSendEnterFooter (gen : GenDataFooter) : GenDataFooter :=
  { gen with state := PyJitGenState.Running }

/-- The sent value as passed to the resume entry (pyjit.cpp lines 852-863):
on exception injection the argument becomes NULL (none); otherwise None is
substituted for a NULL argument. -/
def genSendArg (arg : Option PyVal) (exc : Bool) : Option PyVal :=
  if exc then none
  else
    match arg with
    | none => some PyVal.none_obj
    | some v => some v

/-- The frame mutation of _PyJIT_GenSend (pyjit.cpp lines 865-876): mark the
frame executing and set f_lasti to the max-int sentinel. -/
def genSendFrame (f : Option PyFrameObject) : Option PyFrameObject :=
  f.map (fun fr => { fr with f_executing := true, f_lasti := 2147483647 })

/-- Everything _PyJIT_GenSend produces: the value returned by the resume
entry, the final footer, the argument that was handed to the resume entry and
the updated frame. -/
structure GenSendOutcome where
  result : Option PyVal
  footer : GenDataFooter
  argPassed : Option PyVal
  frame : Option PyFrameObject
deriving DecidableEq, Repr

/-- _PyJIT_GenSend (pyjit.cpp lines 835-890).  The resume entry of the yield
point is generated native code, modelled as an oracle from the sent value to
the returned value; when it returns NULL (none) the state transitions to
Completed. -/
def _PyJIT_GenSend (resumeEntry : Option PyVal → Option PyVal) (gen : GenDataFooter)
    (arg : Option PyVal) (exc : Bool) (f : Option PyFrameObject) : GenSendOutcome :=
  let gen1 := genSendEnterFooter gen
  let arg1 := genSendArg arg exc
  let f1 := genSendFrame f
  let result := resumeEntry arg1
  let gen2 :=
    if result.isNone then { gen1 with state := PyJitGenState.Completed } else gen1
  { result := result, footer := gen2, argPassed := arg1, frame := f1 }

/-- The inputs _PyJIT_Initialize draws from X options, environment variables
and its external calls (spec section 4.7).  Each Bool field is the value the
corresponding _is_flag_set call resolves to; each external call that can fail
is represented by a Bool success field.  jit_list_entries is the contents the
jit-list file parses to when parsing succeeds. -/
structure InitEnv where
  jit_flag : Bool
  log_file : Option String
  log_file_opens : Bool
  debug : Bool
  debug_refcount : Bool
  dump_hir : Bool
  dump_hir_passes : Bool
  dump_final_hir : Bool
  dump_lir : Bool
  dump_lir_no_origin : Bool
  disas_funcs : Bool
  gdb_support : Bool
  gdb_stubs_support : Bool
  gdb_write_elf : Bool
  enable_jit_list_wildcards : Bool
  all_static_functions : Bool
  jit_list_file : Option String
  jit_list_alloc_ok : Bool
  jit_list_parse_ok : Bool
  jit_list_entries : List (String × String)
  ctx_init_ok : Bool
  ctx_new_ok : Bool
  module_create_ok : Bool
  modname_ok : Bool
  fixup_ok : Bool
  tiny_frame : Bool
  no_frame : Bool
  no_type_slots : Bool
  batch_compile_workers : Nat
  test_multithreaded : Bool
deriving DecidableEq, Repr

/-- Apply a state mutation when a flag is set (the shape of each
_is_flag_set block in _PyJIT_Initialize). -/
def setIf (b : Bool) (f : JITState → JITState) (s : JITState) : JITState :=
  if b then f s else s

/-- The log-file redirection step of _PyJIT_Initialize (pyjit.cpp lines
554-573): when a log file is configured and fopen succeeds, g_log_file is
redirected; otherwise logging stays on stderr. -/
def initLogStep (env : InitEnv) (s : JITState) : JITState :=
  match env.log_file with
  | none => s
  | some name => if env.log_file_opens then { s with g_log_file := some name } else s

/-- Mutate only the debug globals of the state. -/
def dbgMut (f : DebugGlobals → DebugGlobals) (t : JITState) : JITState :=
  { t with dbg := f t.dbg }

/-- Set the allow_jit_list_wildcards config flag (pyjit.cpp line 628). -/
def cfgWildcardMut (t : JITState) : JITState :=
  { t with config := { t.config with allow_jit_list_wildcards := true } }

/-- Set the compile_all_static_functions config flag (pyjit.cpp line 632). -/
def cfgAllStaticMut (t : JITState) : JITState :=
  { t with config := { t.config with compile_all_static_functions := true } }

/-- The unconditional flag-processing prefix of _PyJIT_Initialize (pyjit.cpp
lines 554-633): log redirection, the debug/dump/gdb globals, and the
allow_jit_list_wildcards and compile_all_static_functions config flags.  All
of these mutations happen before any failure return of the function. -/
def initSetFlags (env : InitEnv) (s : JITState) : JITState :=
  setIf env.all_static_functions cfgAllStaticMut
    (setIf env.enable_jit_list_wildcards cfgWildcardMut
      (setIf env.gdb_write_elf
        (dbgMut (fun d => { d with g_debug := true, g_gdb_support := true, g_gdb_write_elf_objects := true }))
        (setIf env.gdb_stubs_support
          (dbgMut (fun d => { d with g_gdb_stubs_support := true }))
          (setIf env.gdb_support
            (dbgMut (fun d => { d with g_debug := true, g_gdb_support := true }))
            (setIf env.disas_funcs
              (dbgMut (fun d => { d with g_disas_funcs := true }))
              (setIf env.dump_lir_no_origin
                (dbgMut (fun d => { d with g_dump_lir := true, g_dump_lir_no_origin := true }))
                (setIf env.dump_lir
                  (dbgMut (fun d => { d with g_dump_lir := true }))
                  (setIf env.dump_final_hir
                    (dbgMut (fun d => { d with g_dump_final_hir := true }))
                    (setIf env.dump_hir_passes
                      (dbgMut (fun d => { d with g_dump_hir_passes := true }))
                      (setIf env.dump_hir
                        (dbgMut (fun d => { d with g_dump_hir := true }))
                        (setIf env.debug_refcount
                          (dbgMut (fun d => { d with g_debug_refcount := true }))
                          (setIf env.debug
                            (dbgMut (fun d => { d with g_debug := true, g_debug_verbose := true }))
                            (initLogStep env s)))))))))))))

/-- The activation tail of _PyJIT_Initialize once use_jit is known to be set
(pyjit.cpp lines 661-712): context initialization and creation, the
cinderjit module registration, then the config updates.  The JIT_CHECK that
jit-tiny-frame and jit-no-frame are mutually exclusive is a fatal assertion,
modelled as the none outcome.  jl is the parsed jit list (none when no jit
list file is configured). -/
def initWithJit (env : InitEnv) (jl : Option JITList) (s : JITState) : Option (Int × JITState) :=
  if !env.ctx_init_ok then some (-1, s)
  else if !env.ctx_new_ok then some (-1, s)
  else
    let s1 := { s with jit_ctx := some { records := [] } }
    if !env.module_create_ok then some (-1, s1)
    else if !env.modname_ok then some (-1, s1)
    else if !env.fixup_ok then some (-1, s1)
    else
      let s2 := { s1 with config := { s1.config with init_state := JIT_INITIALIZED, is_enabled := true }
                          g_jit_list := jl }
      let s3 :=
        if env.tiny_frame then
          { s2 with config := { s2.config with frame_mode := TINY_FRAME } }
        else s2
      if env.no_frame && decide (s3.config.frame_mode ≠ PY_FRAME) then none
      else
        let s4 :=
          if env.no_frame then
            { s3 with config := { s3.config with frame_mode := NO_FRAME } }
          else s3
        let s5 := { s4 with config := { s4.config with
                      are_type_slots_enabled := !env.no_type_slots
                      batch_compile_workers := env.batch_compile_workers
                      test_multithreaded_compile :=
                        s4.config.test_multithreaded_compile || env.test_multithreaded } }
        some (0, { s5 with total_compliation_time := 0 })

/-- _PyJIT_Initialize (pyjit.cpp lines 543-713): returns 0 when already
initialized; processes flags; when a jit-list file is configured, a failed
list allocation returns -1 and a failed parse disables the JIT with return 0;
without use_jit it returns 0; otherwise it proceeds to activation. -/
def _PyJIT_Initialize (env : InitEnv) (s : JITState) : Option (Int × JITState) :=
  if s.config.init_state = JIT_INITIALIZED then some (0, s)
  else
    let s1 := initSetFlags env s
    match env.jit_list_file with
    | some _ =>
        if !env.jit_list_alloc_ok then some (-1, s1)
        else if !env.jit_list_parse_ok then some (0, s1)
        else
          initWithJit env
            (some { wildcard := s1.config.allow_jit_list_wildcards
                    entries := env.jit_list_entries }) s1
    | none =>
        if env.jit_flag then initWithJit env none s1 else some (0, s1)

/-- The condition under which _PyJIT_Initialize completes activation and sets
init_state to JIT_INITIALIZED. -/
def initActivates (env : InitEnv) : Bool :=
  (match env.jit_list_file with
   | some _ => env.jit_list_alloc_ok && env.jit_list_parse_ok
   | none => env.jit_flag) &&
  env.ctx_init_ok && env.ctx_new_ok && env.module_create_ok &&
  env.modname_ok && env.fixup_ok

/-- Modelled from the spec: a successful back-end compile installs the
compilation record for the function, after which didCompile answers yes
(spec sections 4.2 and 6). -/
def installCompiled (s : JITState) (func : PyFunctionObject) : JITState :=
  match s.jit_ctx with
  | none => s
  | some ctx =>
      { s with jit_ctx := some { records := alistEmplace ctx.records func { codeSize := 1, stackSize := 1, spillStackSize := 0 } } }

/-- Modelled from the spec: a back-end whose compile always succeeds,
installing the record and touching nothing else. -/
def okBackend : Backend :=
  fun s func => (PYJIT_RESULT_OK, installCompiled s func)

/-- The property the spec assigns to the back-end compile entry: when it
reports Ok it has installed the record, so didCompile subsequently answers
yes (spec section 6: compile installs native dispatch on success). -/
def BackendHonest (be : Backend) : Prop :=
  ∀ s func, s.jit_ctx.isSome = true → (be s func).1 = PYJIT_RESULT_OK →
    _PyJIT_IsCompiled (be s func).2 func = true

/-- A back-end that returns the active-compile stack exactly as it received
it; any composition of controller re-entries has this shape. -/
def BackendStackStable (be : Backend) : Prop :=
  ∀ s func, ((be s func).2).active_compiles = s.active_compiles

/-- A back-end that leaves the frame mode and the type-slot flag alone; the
back-end compiler does not touch jit_config. -/
def BackendPreservesModes (be : Backend) : Prop :=
  ∀ s func, ((be s func).2).config.frame_mode = s.config.frame_mode ∧
    ((be s func).2).config.are_type_slots_enabled = s.config.are_type_slots_enabled

/-- A concrete function object; distinct arguments give distinct identities
and distinct code objects. -/
def mkFunc (n : Nat) : PyFunctionObject :=
  { fid := n
    func_code := { cid := n, co_statically_compiled := false, co_normal_frame := false }
    module_name := "m"
    qualname := "f" }

/-- n concrete functions with pairwise distinct code objects. -/
def chainFuncs (n : Nat) : List PyFunctionObject :=
  (List.range n).map mkFunc

/-- A typical post-initialization state: initialized, enabled, empty record
map, no jit list. -/
def stateInit : JITState :=
  { JITState.initial with
      config := { JitConfig.initial with
                    init_state := JIT_INITIALIZED
                    is_enabled := true
                    are_type_slots_enabled := true }
      jit_ctx := some { records := [] } }

/-- The relation between a state and its image under the flag-processing
prefix of _PyJIT_Initialize: everything except the debug globals, the log
file, and the two jit-list config flags is untouched. -/
def FlagsOnly (a b : JITState) : Prop :=
  b.config.init_state = a.config.init_state ∧
  b.config.is_enabled = a.config.is_enabled ∧
  b.config.frame_mode = a.config.frame_mode ∧
  b.config.are_type_slots_enabled = a.config.are_type_slots_enabled ∧
  b.config.batch_compile_workers = a.config.batch_compile_workers ∧
  b.config.test_multithreaded_compile = a.config.test_multithreaded_compile ∧
  b.jit_ctx = a.jit_ctx ∧
  b.g_jit_list = a.g_jit_list ∧
  b.jit_reg_functions = a.jit_reg_functions ∧
  b.test_multithreaded_funcs = a.test_multithreaded_funcs ∧
  b.jit_time_functions = a.jit_time_functions ∧
  b.total_compliation_time = a.total_compliation_time ∧
  b.active_compiles = a.active_compiles

/-- A baseline environment: no flags set, every external call succeeds. -/
def envDefault : InitEnv :=
  { jit_flag := false, log_file := none, log_file_opens := false
    debug := false, debug_refcount := false, dump_hir := false, dump_hir_passes := false
    dump_final_hir := false, dump_lir := false, dump_lir_no_origin := false
    disas_funcs := false, gdb_support := false, gdb_stubs_support := false, gdb_write_elf := false
    enable_jit_list_wildcards := false, all_static_functions := false
    jit_list_file := none, jit_list_alloc_ok := true, jit_list_parse_ok := true
    jit_list_entries := [], ctx_init_ok := true, ctx_new_ok := true
    module_create_ok := true, modname_ok := true, fixup_ok := true
    tiny_frame := false, no_frame := false, no_type_slots := false
    batch_compile_workers := 0, test_multithreaded := false }

/-- JIT requested but the cinderjit module creation fails. -/
def envC1 : InitEnv := { envDefault with jit_flag := true, module_create_ok := false }

/-- JIT requested and everything succeeds. -/
def envOK : InitEnv := { envDefault with jit_flag := true }

/-- A jit-list file is configured but fails to parse. -/
def envC7 : InitEnv := { envDefault with jit_list_file := some "jl", jit_list_parse_ok := false }

/-- The state _PyJIT_Initialize leaves behind in the envC1 scenario. -/
def stateC1 : JITState := { JITState.initial with jit_ctx := some { records := [] } }

/-- A record map in which mkFunc 0 is compiled. -/
def compiledCtx : CompileContext :=
  { records := [(mkFunc 0, { codeSize := 1, stackSize := 1, spillStackSize := 0 })] }

/-- An initialized state that has accumulated 5 time units of compilation. -/
def stateC2 : JITState :=
  { stateInit with total_compliation_time := 5, jit_time_functions := [(mkFunc 0, 5)] }

/-- The state _PyJIT_Finalize leaves behind when run on stateC2. -/
def stateC2fin : JITState :=
  { stateC2 with config := { stateC2.config with init_state := JIT_FINALIZED }
                 g_jit_list := none
                 jit_ctx := none }

/-- An initialized state in test-multithreaded mode with mkFunc 0 compiled. -/
def stateC5 : JITState :=
  { stateInit with config := { stateInit.config with test_multithreaded_compile := true }
                   jit_ctx := some compiledCtx }

/-- An initialized, enabled state with the type-slot flag cleared. -/
def stateC6 : JITState :=
  { stateInit with config := { stateInit.config with are_type_slots_enabled := false } }

/-- An initialized, enabled state in which mkFunc 0 is already registered. -/
def stateC8 : JITState :=
  { stateInit with jit_reg_functions := [mkFunc 0] }

/-- An initialized state whose active-compile stack is at the depth limit. -/
def stateFull : JITState :=
  { stateInit with
      active_compiles := (List.range 10).map
        (fun k => { cid := 100 + k, co_statically_compiled := false, co_normal_frame := false }) }

lemma alistLookup_emplace_self {β : Type} (m : List (PyFunctionObject × β))
    (f : PyFunctionObject) (v : β) :
    (alistLookup (alistEmplace m f v) f).isSome = true := by
  induction m with
  | nil => simp [alistEmplace, alistLookup]
  | cons hd tl ih =>
      obtain ⟨g, w⟩ := hd
      by_cases hgf : g = f
      · simp [alistEmplace, alistLookup, hgf]
      · simp [alistEmplace, alistLookup, hgf, ih]

lemma okBackend_honest : BackendHonest okBackend := by
  intro s func hs _
  unfold okBackend installCompiled _PyJIT_IsCompiled
  cases hctx : s.jit_ctx with
  | none => rw [hctx] at hs; simp [Option.isSome] at hs
  | some ctx => simp [CompileContext.didCompile, alistLookup_emplace_self]

lemma okBackend_stackStable : BackendStackStable okBackend := by
  intro s func
  unfold okBackend installCompiled
  cases s.jit_ctx <;> rfl

lemma okBackend_preservesModes : BackendPreservesModes okBackend := by
  intro s func
  unfold okBackend installCompiled
  cases s.jit_ctx <;> exact ⟨rfl, rfl⟩

lemma flagsOnly_refl (a : JITState) : FlagsOnly a a :=
  ⟨rfl, rfl, rfl, rfl, rfl, rfl, rfl, rfl, rfl, rfl, rfl, rfl, rfl⟩

lemma flagsOnly_trans {a b c : JITState} (h1 : FlagsOnly a b) (h2 : FlagsOnly b c) :
    FlagsOnly a c := by
  obtain ⟨p1, p2, p3, p4, p5, p6, p7, p8, p9, p10, p11, p12, p13⟩ := h1
  obtain ⟨q1, q2, q3, q4, q5, q6, q7, q8, q9, q10, q11, q12, q13⟩ := h2
  exact ⟨q1.trans p1, q2.trans p2, q3.trans p3, q4.trans p4, q5.trans p5,
         q6.trans p6, q7.trans p7, q8.trans p8, q9.trans p9, q10.trans p10,
         q11.trans p11, q12.trans p12, q13.trans p13⟩

lemma setIf_flagsOnly {f : JITState → JITState} (hf : ∀ t, FlagsOnly t (f t))
    (b : Bool) (s : JITState) : FlagsOnly s (setIf b f s) := by
  unfold setIf
  split
  · exact hf s
  · exact flagsOnly_refl s

lemma setIf_flagsOnly_comp {f : JITState → JITState} {s m : JITState}
    (h1 : FlagsOnly s m) (hf : ∀ t, FlagsOnly t (f t)) (b : Bool) :
    FlagsOnly s (setIf b f m) :=
  flagsOnly_trans h1 (setIf_flagsOnly hf b m)

lemma initLogStep_flagsOnly (env : InitEnv) (s : JITState) :
    FlagsOnly s (initLogStep env s) := by
  unfold initLogStep
  cases env.log_file with
  | none => exact flagsOnly_refl s
  | some name =>
      dsimp only
      by_cases ho : env.log_file_opens = true
      · rw [if_pos ho]
        exact ⟨rfl, rfl, rfl, rfl, rfl, rfl, rfl, rfl, rfl, rfl, rfl, rfl, rfl⟩
      · rw [if_neg ho]
        exact flagsOnly_refl s

lemma dbgMut_flagsOnly (f : DebugGlobals → DebugGlobals) (t : JITState) :
    FlagsOnly t (dbgMut f t) :=
  ⟨rfl, rfl, rfl, rfl, rfl, rfl, rfl, rfl, rfl, rfl, rfl, rfl, rfl⟩

lemma cfgWildcardMut_flagsOnly (t : JITState) : FlagsOnly t (cfgWildcardMut t) :=
  ⟨rfl, rfl, rfl, rfl, rfl, rfl, rfl, rfl, rfl, rfl, rfl, rfl, rfl⟩

lemma cfgAllStaticMut_flagsOnly (t : JITState) : FlagsOnly t (cfgAllStaticMut t) :=
  ⟨rfl, rfl, rfl, rfl, rfl, rfl, rfl, rfl, rfl, rfl, rfl, rfl, rfl⟩

lemma initSetFlags_flagsOnly (env : InitEnv) (s : JITState) :
    FlagsOnly s (initSetFlags env s) := by
  unfold initSetFlags
  exact
    setIf_flagsOnly_comp
      (setIf_flagsOnly_comp
        (setIf_flagsOnly_comp
          (setIf_flagsOnly_comp
            (setIf_flagsOnly_comp
              (setIf_flagsOnly_comp
                (setIf_flagsOnly_comp
                  (setIf_flagsOnly_comp
                    (setIf_flagsOnly_comp
                      (setIf_flagsOnly_comp
                        (setIf_flagsOnly_comp
                          (setIf_flagsOnly_comp
                            (setIf_flagsOnly_comp
                              (initLogStep_flagsOnly env s)
                              (dbgMut_flagsOnly _) _)
                            (dbgMut_flagsOnly _) _)
                          (dbgMut_flagsOnly _) _)
                        (dbgMut_flagsOnly _) _)
                      (dbgMut_flagsOnly _) _)
                    (dbgMut_flagsOnly _) _)
                  (dbgMut_flagsOnly _) _)
                (dbgMut_flagsOnly _) _)
              (dbgMut_flagsOnly _) _)
            (dbgMut_flagsOnly _) _)
          (dbgMut_flagsOnly _) _)
        cfgWildcardMut_flagsOnly _)
      cfgAllStaticMut_flagsOnly _

lemma initWithJit_init_state (env : InitEnv) (jl : Option JITList) (s : JITState)
    (r : Int) (s2 : JITState) (h : initWithJit env jl s = some (r, s2)) :
    ((env.ctx_init_ok && env.ctx_new_ok && env.module_create_ok &&
        env.modname_ok && env.fixup_ok) = true →
      s2.config.init_state = JIT_INITIALIZED) ∧
    ((env.ctx_init_ok && env.ctx_new_ok && env.module_create_ok &&
        env.modname_ok && env.fixup_ok) = false →
      s2.config.init_state = s.config.init_state) := by
  unfold initWithJit at h
  cases hc1 : env.ctx_init_ok with
  | false =>
      simp [hc1] at h
      obtain ⟨h1, h2⟩ := h
      subst h2
      simp [hc1]
  | true =>
  cases hc2 : env.ctx_new_ok with
  | false =>
      simp [hc1, hc2] at h
      obtain ⟨h1, h2⟩ := h
      subst h2
      simp [hc2]
  | true =>
  cases hc3 : env.module_create_ok with
  | false =>
      simp [hc1, hc2, hc3] at h
      obtain ⟨h1, h2⟩ := h
      subst h2
      simp [hc3]
  | true =>
  cases hc4 : env.modname_ok with
  | false =>
      simp [hc1, hc2, hc3, hc4] at h
      obtain ⟨h1, h2⟩ := h
      subst h2
      simp [hc4]
  | true =>
  cases hc5 : env.fixup_ok with
  | false =>
      simp [hc1, hc2, hc3, hc4, hc5] at h
      obtain ⟨h1, h2⟩ := h
      subst h2
      simp [hc5]
  | true =>
      constructor
      · intro _
        cases ht : env.tiny_frame with
        | true =>
            cases hn : env.no_frame with
            | true => simp [hc1, hc2, hc3, hc4, hc5, ht, hn] at h
            | false =>
                simp [hc1, hc2, hc3, hc4, hc5, ht, hn] at h
                obtain ⟨h1, h2⟩ := h
                subst h2
                rfl
        | false =>
            cases hn : env.no_frame with
            | false =>
                simp [hc1, hc2, hc3, hc4, hc5, ht, hn] at h
                obtain ⟨h1, h2⟩ := h
                subst h2
                rfl
            | true =>
                by_cases hfm : s.config.frame_mode = PY_FRAME
                · simp [hc1, hc2, hc3, hc4, hc5, ht, hn, hfm] at h
                  obtain ⟨h1, h2⟩ := h
                  subst h2
                  rfl
                · simp [hc1, hc2, hc3, hc4, hc5, ht, hn, hfm] at h
      · intro hcontra
        simp [hc1, hc2, hc3, hc4, hc5] at hcontra

/-- Claim C1 (amended): if any step of _PyJIT_Initialize fails (it returns -1
or aborts activation), the controller remains in the Uninitialized state:
init_state becomes JIT_INITIALIZED exactly when the whole activation sequence
succeeds, and is left at JIT_NOT_INITIALIZED otherwise.  Contrary to the
original claim, partial state set by the failed call can remain observable
(configuration flags, debug globals, and on module-registration failure even
the JIT context); see the counterexample. -/
theorem initialize_failure_leaves_uninitialized (env : InitEnv) (s0 : JITState)
    (h0 : s0.config.init_state = JIT_NOT_INITIALIZED) (r : Int) (s1 : JITState)
    (h : _PyJIT_Initialize env s0 = some (r, s1)) :
    (initActivates env = true → s1.config.init_state = JIT_INITIALIZED) ∧
    (initActivates env = false → s1.config.init_state = JIT_NOT_INITIALIZED) := by
  have hne : ¬(s0.config.init_state = JIT_INITIALIZED) := by
    rw [h0]
    intro hx
    cases hx
  have hfo := (initSetFlags_flagsOnly env s0).1
  unfold _PyJIT_Initialize at h
  rw [if_neg hne] at h
  cases hjl : env.jit_list_file with
  | none =>
      rw [hjl] at h
      dsimp only at h
      cases hjf : env.jit_flag with
      | false =>
          rw [hjf] at h
          simp at h
          obtain ⟨h1, h2⟩ := h
          subst h2
          refine ⟨fun ha => ?_, fun _ => hfo.trans h0⟩
          rw [initActivates, hjl] at ha
          simp [hjf] at ha
      | true =>
          rw [hjf] at h
          simp only [if_true] at h
          have hw := initWithJit_init_state env none (initSetFlags env s0) r s1 h
          constructor
          · intro ha
            rw [initActivates, hjl] at ha
            apply hw.1
            simpa [hjf] using ha
          · intro ha
            rw [initActivates, hjl] at ha
            simp only [hjf, Bool.true_and] at ha
            exact (hw.2 ha).trans (hfo.trans h0)
  | some p =>
      rw [hjl] at h
      dsimp only at h
      cases halloc : env.jit_list_alloc_ok with
      | false =>
          simp [halloc] at h
          obtain ⟨h1, h2⟩ := h
          subst h2
          refine ⟨fun ha => ?_, fun _ => hfo.trans h0⟩
          rw [initActivates, hjl] at ha
          simp [halloc] at ha
      | true =>
          cases hparse : env.jit_list_parse_ok with
          | false =>
              simp [halloc, hparse] at h
              obtain ⟨h1, h2⟩ := h
              subst h2
              refine ⟨fun ha => ?_, fun _ => hfo.trans h0⟩
              rw [initActivates, hjl] at ha
              simp [halloc, hparse] at ha
          | true =>
              simp only [halloc, hparse, Bool.not_true, Bool.false_eq_true, if_false] at h
              have hw := initWithJit_init_state env _ (initSetFlags env s0) r s1 h
              constructor
              · intro ha
                rw [initActivates, hjl] at ha
                apply hw.1
                simpa [halloc, hparse] using ha
              · intro ha
                rw [initActivates, hjl] at ha
                simp only [halloc, hparse, Bool.true_and] at ha
                exact (hw.2 ha).trans (hfo.trans h0)

/-- Claim C1, counterexample: when the cinderjit module registration step of
_PyJIT_Initialize fails, the call returns -1, yet the jit_ctx global created
before the failure (pyjit.cpp line 666) remains set and is visible to
subsequent operations: _PyJIT_CompileFunction on the resulting state proceeds
to compile instead of answering NotInitialized, contradicting the claim that
no partial state is observable after a failed Initialize. -/
theorem initialize_partial_state_counterexample :
    _PyJIT_Initialize envC1 JITState.initial = some (-1, stateC1) ∧
    stateC1.config.init_state = JIT_NOT_INITIALIZED ∧
    stateC1.jit_ctx.isSome = true ∧
    (_PyJIT_CompileFunction okBackend 1 stateC1 (mkFunc 0)).1 = PYJIT_RESULT_OK :=
  ⟨by decide, by decide, by decide, by decide⟩

/-- Witness for the C1 theorem at a concrete successful environment. -/
theorem initialize_failure_leaves_uninitialized_witness :
    stateInit.config.init_state = JIT_INITIALIZED :=
  (initialize_failure_leaves_uninitialized envOK JITState.initial rfl 0 stateInit
    (by decide)).1 (by decide)

/-- Claim C7: when the configured jit-list file exists but fails to parse,
_PyJIT_Initialize returns success 0, the controller stays Uninitialized with
no JIT context, the JIT is disabled, and on the resulting state no function is
compiled or registered: IsCompiled is false everywhere, CompileFunction always
answers NotInitialized without touching the state, and RegisterFunction
refuses every function. -/
theorem jit_list_parse_failure_disables (env : InitEnv)
    (hf : env.jit_list_file.isSome = true)
    (ha : env.jit_list_alloc_ok = true)
    (hp : env.jit_list_parse_ok = false)
    (r : Int) (s1 : JITState)
    (h : _PyJIT_Initialize env JITState.initial = some (r, s1)) :
    r = 0 ∧ s1.config.init_state = JIT_NOT_INITIALIZED ∧ s1.jit_ctx = none ∧
    _PyJIT_IsEnabled s1 = false ∧
    (∀ func, _PyJIT_IsCompiled s1 func = false) ∧
    (∀ be e func, _PyJIT_CompileFunction be e s1 func = (PYJIT_NOT_INITIALIZED, s1)) ∧
    (∀ func, _PyJIT_RegisterFunction s1 func = (false, s1)) := by
  have hne : ¬(JITState.initial.config.init_state = JIT_INITIALIZED) := by
    intro hx
    cases hx
  unfold _PyJIT_Initialize at h
  rw [if_neg hne] at h
  cases hjl : env.jit_list_file with
  | none => rw [hjl] at hf; simp at hf
  | some p =>
      rw [hjl] at h
      dsimp only at h
      simp [ha, hp] at h
      obtain ⟨h1, h2⟩ := h
      subst h2
      obtain ⟨f1, f2, _, _, _, _, f7, _, f9, _, _, _, _⟩ :=
        initSetFlags_flagsOnly env JITState.initial
      have hinit : (initSetFlags env JITState.initial).config.init_state = JIT_NOT_INITIALIZED :=
        f1.trans rfl
      have henb : (initSetFlags env JITState.initial).config.is_enabled = false :=
        f2.trans rfl
      have hctx : (initSetFlags env JITState.initial).jit_ctx = none :=
        f7.trans rfl
      have hen : _PyJIT_IsEnabled (initSetFlags env JITState.initial) = false := by
        rw [_PyJIT_IsEnabled, hinit, henb]
        rfl
      refine ⟨h1.symm, hinit, hctx, hen, fun func => ?_, fun be e func => ?_, fun func => ?_⟩
      · rw [_PyJIT_IsCompiled, hctx]
      · rw [_PyJIT_CompileFunction, hctx]
        rfl
      · rw [_PyJIT_RegisterFunction, hen]
        rfl

/-- Witness for the C7 theorem at a concrete environment. -/
theorem jit_list_parse_failure_disables_witness :
    _PyJIT_IsEnabled JITState.initial = false ∧
    _PyJIT_CompileFunction okBackend 1 JITState.initial (mkFunc 0)
      = (PYJIT_NOT_INITIALIZED, JITState.initial) ∧
    _PyJIT_RegisterFunction JITState.initial (mkFunc 0) = (false, JITState.initial) := by
  have hx := jit_list_parse_failure_disables envC7 (by decide) (by decide) (by decide)
    0 JITState.initial (by decide)
  exact ⟨hx.2.2.2.1, hx.2.2.2.2.2.1 okBackend 1 (mkFunc 0), hx.2.2.2.2.2.2 (mkFunc 0)⟩

lemma bool_false_of_not_true {b : Bool} (h : ¬(b = true)) : b = false := by
  cases hb : b
  · rfl
  · exact absurd hb h

lemma mem_setInsert_self (l : List PyFunctionObject) (f : PyFunctionObject) :
    f ∈ setInsert l f := by
  unfold setInsert
  split
  · assumption
  · simp

lemma mem_setErase_setInsert (l : List PyFunctionObject) (f g : PyFunctionObject)
    (hf : f ∉ l) : (g ∈ setErase (setInsert l f) f ↔ g ∈ l) := by
  unfold setInsert setErase
  rw [if_neg hf]
  by_cases hgf : g = f
  · subst hgf
    simp [hf, List.mem_filter]
  · simp [List.mem_filter, hgf]

lemma mem_setErase_of_not_mem (l : List PyFunctionObject) (f g : PyFunctionObject)
    (hf : f ∉ l) : (g ∈ setErase l f ↔ g ∈ l) := by
  unfold setErase
  by_cases hgf : g = f
  · subst hgf
    simp [hf, List.mem_filter]
  · simp [List.mem_filter, hgf]

/-- Claim C2 (amended): after _PyJIT_Finalize returns on an initialized state,
IsEnabled answers false and get_jit_list, get_compiled_functions and the
three size queries answer nil/empty/zero; but, contrary to the original
claim, get_compilation_time and get_function_compilation_time retain their
pre-Finalize values, because _PyJIT_Finalize never resets
total_compliation_time or jit_time_functions. -/
theorem finalize_introspection (s : JITState) (ctx : CompileContext)
    (h1 : s.config.init_state = JIT_INITIALIZED) (h2 : s.jit_ctx = some ctx)
    (r : Int) (s1 : JITState) (h : _PyJIT_Finalize s = some (r, s1)) :
    r = 0 ∧ _PyJIT_IsEnabled s1 = false ∧ get_jit_list s1 = none ∧
    get_compiled_functions s1 = [] ∧
    (∀ func, get_compiled_size s1 func = 0) ∧
    (∀ func, get_compiled_stack_size s1 func = 0) ∧
    (∀ func, get_compiled_spill_stack_size s1 func = 0) ∧
    get_compilation_time s1 = get_compilation_time s ∧
    (∀ func, get_function_compilation_time s1 func = get_function_compilation_time s func) := by
  unfold _PyJIT_Finalize at h
  rw [if_neg (fun hc => hc h1)] at h
  simp [h2] at h
  obtain ⟨hr, hs⟩ := h
  subst hs
  exact ⟨hr.symm, rfl, rfl, rfl, fun _ => rfl, fun _ => rfl, fun _ => rfl, rfl, fun _ => rfl⟩

/-- Claim C2, counterexample: on a state that accumulated 5 time units of
compilation, _PyJIT_Finalize succeeds but get_compilation_time still answers
5000 ms and get_function_compilation_time still answers 5000 ms for the
compiled function, contradicting the claim that every introspection query
returns zero, empty or nil after Finalize. -/
theorem finalize_compilation_time_counterexample :
    _PyJIT_Finalize stateC2 = some (0, stateC2fin) ∧
    get_compilation_time stateC2fin = 5000 ∧
    get_function_compilation_time stateC2fin (mkFunc 0) = some 5000 :=
  ⟨by decide, by decide, by decide⟩

/-- Witness for the C2 theorem on a concrete finalized state. -/
theorem finalize_introspection_witness :
    _PyJIT_IsEnabled stateC2fin = false ∧ get_jit_list stateC2fin = none ∧
    get_compiled_size stateC2fin (mkFunc 0) = 0 ∧
    get_compilation_time stateC2fin = get_compilation_time stateC2 := by
  have hx := finalize_introspection stateC2 { records := [] } rfl rfl 0 stateC2fin (by decide)
  exact ⟨hx.2.1, hx.2.2.1, hx.2.2.2.2.1 (mkFunc 0), hx.2.2.2.2.2.2.2.1⟩

/-- Claim C10: with no jit list configured (the list pointer is null),
_PyJIT_OnJitList accepts every function, and with the JIT enabled
_PyJIT_RegisterFunction inserts every function into the registration set. -/
theorem on_jit_list_default_accepts :
    (∀ s func, s.g_jit_list = none → _PyJIT_OnJitList s func = true) ∧
    (∀ s func, s.g_jit_list = none → _PyJIT_IsEnabled s = true →
      (_PyJIT_RegisterFunction s func).1 = true ∧
      func ∈ (_PyJIT_RegisterFunction s func).2.jit_reg_functions) := by
  have hol : ∀ s func, s.g_jit_list = none → _PyJIT_OnJitList s func = true := by
    intro s func hg
    simp [_PyJIT_OnJitList, hg]
  refine ⟨hol, fun s func hg hen => ?_⟩
  rw [_PyJIT_RegisterFunction]
  rw [hen, hol s func hg]
  by_cases ht : s.config.test_multithreaded_compile = true
  · simp [ht, mem_setInsert_self]
  · simp [eq_false_intro ht, mem_setInsert_self]

/-- Witness for the C10 theorem at a concrete state and function. -/
theorem on_jit_list_default_accepts_witness :
    _PyJIT_OnJitList stateInit (mkFunc 0) = true ∧
    (_PyJIT_RegisterFunction stateInit (mkFunc 0)).1 = true ∧
    mkFunc 0 ∈ (_PyJIT_RegisterFunction stateInit (mkFunc 0)).2.jit_reg_functions := by
  have hx := on_jit_list_default_accepts
  exact ⟨hx.1 stateInit (mkFunc 0) rfl, hx.2 stateInit (mkFunc 0) rfl rfl⟩

/-- Claim C8 (amended): provided the function is not already in the
registration set, Register then Unregister restores the set pointwise.  When
the function is already registered the pair removes it (set insert is a no-op
but erase is not); see the counterexample. -/
theorem register_unregister_restores (s : JITState) (func : PyFunctionObject)
    (h : func ∉ s.jit_reg_functions) (g : PyFunctionObject) :
    (g ∈ (_PyJIT_UnregisterFunction (_PyJIT_RegisterFunction s func).2 func).jit_reg_functions
      ↔ g ∈ s.jit_reg_functions) := by
  by_cases hen : _PyJIT_IsEnabled s = true
  · have hen' : (decide (s.config.init_state = JIT_INITIALIZED) && s.config.is_enabled) = true := hen
    by_cases hol : _PyJIT_OnJitList s func = true
    · by_cases ht : s.config.test_multithreaded_compile = true
      · simp only [_PyJIT_RegisterFunction, _PyJIT_UnregisterFunction, _PyJIT_IsEnabled,
          hen', hol, ht, Bool.true_and, Bool.and_self, if_true]
        exact mem_setErase_setInsert s.jit_reg_functions func g h
      · simp only [_PyJIT_RegisterFunction, _PyJIT_UnregisterFunction, _PyJIT_IsEnabled,
          hen', hol, bool_false_of_not_true ht, Bool.true_and, Bool.and_self,
          Bool.false_eq_true, if_true, if_false]
        exact mem_setErase_setInsert s.jit_reg_functions func g h
    · have holf : _PyJIT_OnJitList s func = false := bool_false_of_not_true hol
      simp only [_PyJIT_RegisterFunction, _PyJIT_UnregisterFunction, _PyJIT_IsEnabled,
        hen', holf, Bool.true_and, Bool.and_false, Bool.false_eq_true, if_false, if_true]
      exact mem_setErase_of_not_mem s.jit_reg_functions func g h
  · have henf : _PyJIT_IsEnabled s = false := bool_false_of_not_true hen
    have henf' : (decide (s.config.init_state = JIT_INITIALIZED) && s.config.is_enabled) = false := henf
    simp only [_PyJIT_RegisterFunction, _PyJIT_UnregisterFunction, _PyJIT_IsEnabled,
      henf', Bool.false_and, Bool.false_eq_true, if_false]

/-- Claim C8, counterexample: when the function is already in the
registration set, Register (a no-op insert) followed by Unregister (an erase)
removes it, so the pair does not restore the set pointwise. -/
theorem register_unregister_counterexample :
    mkFunc 0 ∈ stateC8.jit_reg_functions ∧
    mkFunc 0 ∉ (_PyJIT_UnregisterFunction
      (_PyJIT_RegisterFunction stateC8 (mkFunc 0)).2 (mkFunc 0)).jit_reg_functions :=
  ⟨by decide, by decide⟩

/-- Witness for the C8 theorem at a concrete state and function. -/
theorem register_unregister_restores_witness :
    (mkFunc 0 ∈ (_PyJIT_UnregisterFunction
        (_PyJIT_RegisterFunction stateInit (mkFunc 0)).2 (mkFunc 0)).jit_reg_functions
      ↔ mkFunc 0 ∈ stateInit.jit_reg_functions) :=
  register_unregister_restores stateInit (mkFunc 0) (by decide) (mkFunc 0)

/-- Claim C5 (amended): the worker re-check equals the single-function-path
check whenever test-multithreaded-compile mode is disabled; and whenever the
single-function-path condition holds, _PyJIT_CompileFunction returns Ok or
CannotSpecialize, leaves the state untouched and never invokes the back-end
(its outcome is independent of the back-end).  In test-multithreaded mode the
two conditions differ on already-compiled functions; see the
counterexample. -/
theorem worker_skip_matches_compile_function :
    (∀ s func, s.config.test_multithreaded_compile = false →
      workerSkipCondition s func = compileFunctionSkipCondition s func) ∧
    (∀ (be be1 : Backend) (e : Nat) (s : JITState) (func : PyFunctionObject),
      s.jit_ctx.isSome = true →
      compileFunctionSkipCondition s func = true →
      _PyJIT_CompileFunction be e s func = _PyJIT_CompileFunction be1 e s func ∧
      (_PyJIT_CompileFunction be e s func).2 = s ∧
      ((_PyJIT_CompileFunction be e s func).1 = PYJIT_RESULT_OK ∨
        (_PyJIT_CompileFunction be e s func).1 = PYJIT_RESULT_CANNOT_SPECIALIZE)) := by
  constructor
  · intro s func ht
    rw [workerSkipCondition, compileFunctionSkipCondition, ht]
    simp
  · intro be be1 e s func hs hsk
    have hnn : s.jit_ctx.isNone = false := by
      cases hjc : s.jit_ctx
      · rw [hjc] at hs
        simp at hs
      · rfl
    by_cases hc : _PyJIT_IsCompiled s func = true
    · rw [_PyJIT_CompileFunction, _PyJIT_CompileFunction]
      simp [hnn, hc]
    · have hcf : _PyJIT_IsCompiled s func = false := bool_false_of_not_true hc
      rw [compileFunctionSkipCondition, hcf] at hsk
      simp only [Bool.false_or, Bool.not_eq_true'] at hsk
      rw [_PyJIT_CompileFunction, _PyJIT_CompileFunction]
      simp [hnn, hcf, hsk]

/-- Claim C5, counterexample: in test-multithreaded mode, on an
already-compiled function that is on the jit list, the worker proceeds while
the single-function path skips, so the two conditions are not equivalent for
every configuration. -/
theorem worker_skip_test_mode_counterexample :
    workerSkipCondition stateC5 (mkFunc 0) = false ∧
    compileFunctionSkipCondition stateC5 (mkFunc 0) = true :=
  ⟨by decide, by decide⟩

/-- Witness for the C5 theorem at a concrete state and function. -/
theorem worker_skip_matches_compile_function_witness :
    workerSkipCondition stateInit (mkFunc 0) = compileFunctionSkipCondition stateInit (mkFunc 0) :=
  worker_skip_matches_compile_function.1 stateInit (mkFunc 0) rfl

/-- Claim C9: for a generator resume whose state is JustStarted or Running,
_PyJIT_GenSend sets the state to Running before entering the resume entry;
when is-exception is false and the sent value is nil, None is substituted;
and after the resume entry returns, the state is Completed exactly when the
entry returned nil. -/
theorem gen_send_contract (resumeEntry : Option PyVal → Option PyVal)
    (gen : GenDataFooter) (arg : Option PyVal) (exc : Bool) (f : Option PyFrameObject)
    (h : gen.state = PyJitGenState.JustStarted ∨ gen.state = PyJitGenState.Running) :
    (genSendEnterFooter gen).state = PyJitGenState.Running ∧
    (exc = false → arg = none → genSendArg arg exc = some PyVal.none_obj) ∧
    ((_PyJIT_GenSend resumeEntry gen arg exc f).footer.state = PyJitGenState.Completed ↔
      (_PyJIT_GenSend resumeEntry gen arg exc f).result = none) := by
  refine ⟨rfl, fun he hn => by simp [genSendArg, he, hn], ?_⟩
  rw [_PyJIT_GenSend]
  cases hres : resumeEntry (genSendArg arg exc) with
  | none => simp [hres, genSendEnterFooter]
  | some v => simp [hres, genSendEnterFooter]

/-- Witness for the C9 theorem at a concrete resume. -/
theorem gen_send_contract_witness :
    (genSendEnterFooter { state := PyJitGenState.JustStarted, yieldPoint := some 0 }).state
      = PyJitGenState.Running ∧
    genSendArg none false = some PyVal.none_obj ∧
    ((_PyJIT_GenSend (fun _ => none)
        { state := PyJitGenState.JustStarted, yieldPoint := some 0 } none false none).footer.state
        = PyJitGenState.Completed ↔
      (_PyJIT_GenSend (fun _ => none)
        { state := PyJitGenState.JustStarted, yieldPoint := some 0 } none false none).result
        = none) := by
  have hx := gen_send_contract (fun _ => none)
    { state := PyJitGenState.JustStarted, yieldPoint := some 0 } none false none (Or.inl rfl)
  exact ⟨hx.1, hx.2.1 rfl rfl, hx.2.2⟩

lemma isSome_of_not_isNone {α : Type} {o : Option α} (h : ¬(o.isNone = true)) :
    o.isSome = true := by
  cases o
  · exact absurd rfl h
  · rfl

lemma compileFunction_ok_compiled (be : Backend) (e : Nat) (s : JITState)
    (func : PyFunctionObject) (hbe : BackendHonest be)
    (h : (_PyJIT_CompileFunction be e s func).1 = PYJIT_RESULT_OK) :
    _PyJIT_IsCompiled (_PyJIT_CompileFunction be e s func).2 func = true := by
  rw [_PyJIT_CompileFunction] at h ⊢
  by_cases h0 : s.jit_ctx.isNone = true
  · rw [if_pos h0] at h
    simp at h
  rw [if_neg h0] at h ⊢
  by_cases h1 : _PyJIT_IsCompiled s func = true
  · rw [if_pos h1] at h ⊢
    exact h1
  rw [if_neg h1] at h ⊢
  by_cases h2 : (!_PyJIT_OnJitList s func) = true
  · rw [if_pos h2] at h
    simp at h
  rw [if_neg h2] at h ⊢
  by_cases h3 : s.active_compiles.length = kMaxCompileDepth ∨ func.func_code ∈ s.active_compiles
  · rw [if_pos h3] at h
    simp at h
  rw [if_neg h3] at h ⊢
  have hok : (be (compileEnterState s func) func).1 = PYJIT_RESULT_OK := h
  have hsome : (compileEnterState s func).jit_ctx.isSome = true :=
    isSome_of_not_isNone h0
  exact hbe (compileEnterState s func) func hsome hok

lemma compileFunction_of_compiled (be : Backend) (e : Nat) (s : JITState)
    (func : PyFunctionObject) (hc : _PyJIT_IsCompiled s func = true) :
    _PyJIT_CompileFunction be e s func = (PYJIT_RESULT_OK, s) := by
  have hnn : s.jit_ctx.isNone = false := by
    rw [_PyJIT_IsCompiled] at hc
    cases hjc : s.jit_ctx
    · rw [hjc] at hc
      simp at hc
    · rfl
  rw [_PyJIT_CompileFunction]
  rw [if_neg (by rw [hnn]; exact fun hx => by cases hx)]
  rw [if_pos hc]

/-- Claim C4: CompileFunction is idempotent: whenever a call returns Ok, any
second call on the resulting state returns Ok, changes nothing, and never
invokes the back-end (its outcome is the same for every back-end and timer
value).  The back-end is constrained only by the honesty property the spec
assigns to it: reporting Ok means the record was installed. -/
theorem compile_function_idempotent (be : Backend) (e : Nat) (s : JITState)
    (func : PyFunctionObject) (hbe : BackendHonest be)
    (h : (_PyJIT_CompileFunction be e s func).1 = PYJIT_RESULT_OK) :
    ∀ (be1 : Backend) (e1 : Nat),
      _PyJIT_CompileFunction be1 e1 (_PyJIT_CompileFunction be e s func).2 func
        = (PYJIT_RESULT_OK, (_PyJIT_CompileFunction be e s func).2) := by
  intro be1 e1
  exact compileFunction_of_compiled be1 e1 _ func
    (compileFunction_ok_compiled be e s func hbe h)

/-- Witness for the C4 theorem at a concrete state, function and back-end. -/
theorem compile_function_idempotent_witness :
    _PyJIT_CompileFunction okBackend 2 (_PyJIT_CompileFunction okBackend 1 stateInit (mkFunc 0)).2 (mkFunc 0)
      = (PYJIT_RESULT_OK, (_PyJIT_CompileFunction okBackend 1 stateInit (mkFunc 0)).2) :=
  compile_function_idempotent okBackend 1 stateInit (mkFunc 0) okBackend_honest
    (by decide) okBackend 2

/-- Claim C6 (amended): the frame-mode field and the type-slot-enabled flag
are never mutated by Enable, Register, Unregister, CompileFunction (for any
back-end that itself leaves them alone) or Finalize; Disable and
EnableTypeSlots leave the frame mode alone.  Contrary to the original claim,
the public operation _PyJIT_EnableTypeSlots does mutate the type-slot flag
outside initialization and Disable; see the counterexample. -/
theorem frame_mode_type_slots_mutation :
    (∀ s : JITState, (_PyJIT_Enable s).2.config.frame_mode = s.config.frame_mode ∧
      (_PyJIT_Enable s).2.config.are_type_slots_enabled = s.config.are_type_slots_enabled) ∧
    (∀ (s : JITState) func,
      (_PyJIT_RegisterFunction s func).2.config.frame_mode = s.config.frame_mode ∧
      (_PyJIT_RegisterFunction s func).2.config.are_type_slots_enabled
        = s.config.are_type_slots_enabled) ∧
    (∀ (s : JITState) func,
      (_PyJIT_UnregisterFunction s func).config.frame_mode = s.config.frame_mode ∧
      (_PyJIT_UnregisterFunction s func).config.are_type_slots_enabled
        = s.config.are_type_slots_enabled) ∧
    (∀ (be : Backend) (e : Nat) (s : JITState) func, BackendPreservesModes be →
      (_PyJIT_CompileFunction be e s func).2.config.frame_mode = s.config.frame_mode ∧
      (_PyJIT_CompileFunction be e s func).2.config.are_type_slots_enabled
        = s.config.are_type_slots_enabled) ∧
    (∀ (s : JITState) (r : Int) (s1 : JITState), _PyJIT_Finalize s = some (r, s1) →
      s1.config.frame_mode = s.config.frame_mode ∧
      s1.config.are_type_slots_enabled = s.config.are_type_slots_enabled) ∧
    (∀ s : JITState, (_PyJIT_Disable s).config.frame_mode = s.config.frame_mode) ∧
    (∀ s : JITState, (_PyJIT_EnableTypeSlots s).2.config.frame_mode = s.config.frame_mode) := by
  refine ⟨fun s => ?_, fun s func => ?_, fun s func => ?_, fun be e s func hbe => ?_,
    fun s r s1 h => ?_, fun s => ?_, fun s => ?_⟩
  · rw [_PyJIT_Enable]
    split
    · exact ⟨rfl, rfl⟩
    · exact ⟨rfl, rfl⟩
  · rw [_PyJIT_RegisterFunction]
    split
    · split
      · exact ⟨rfl, rfl⟩
      · exact ⟨rfl, rfl⟩
    · exact ⟨rfl, rfl⟩
  · rw [_PyJIT_UnregisterFunction]
    split
    · exact ⟨rfl, rfl⟩
    · exact ⟨rfl, rfl⟩
  · rw [_PyJIT_CompileFunction]
    split
    · exact ⟨rfl, rfl⟩
    split
    · exact ⟨rfl, rfl⟩
    split
    · exact ⟨rfl, rfl⟩
    split
    · exact ⟨rfl, rfl⟩
    · exact hbe (compileEnterState s func) func
  · rw [_PyJIT_Finalize] at h
    split at h
    · simp at h
      obtain ⟨h1, h2⟩ := h
      subst h2
      exact ⟨rfl, rfl⟩
    · dsimp only at h
      by_cases hn : s.jit_ctx.isNone = true
      · rw [if_pos hn] at h
        simp at h
      · rw [if_neg hn] at h
        simp at h
        obtain ⟨h1, h2⟩ := h
        subst h2
        exact ⟨rfl, rfl⟩
  · rfl
  · rw [_PyJIT_EnableTypeSlots]
    split
    · rfl
    · rfl

/-- Claim C6, counterexample: on an initialized, enabled state with the
type-slot flag cleared, _PyJIT_EnableTypeSlots, an operation of the public
surface that is neither initialization nor Disable, sets the flag. -/
theorem enable_type_slots_counterexample :
    stateC6.config.are_type_slots_enabled = false ∧
    (_PyJIT_EnableTypeSlots stateC6).2.config.are_type_slots_enabled = true :=
  ⟨by decide, by decide⟩

/-- Witness for the C6 theorem at a concrete state, function and back-end. -/
theorem frame_mode_type_slots_mutation_witness :
    (_PyJIT_CompileFunction okBackend 1 stateInit (mkFunc 0)).2.config.frame_mode
      = stateInit.config.frame_mode ∧
    (_PyJIT_CompileFunction okBackend 1 stateInit (mkFunc 0)).2.config.are_type_slots_enabled
      = stateInit.config.are_type_slots_enabled :=
  frame_mode_type_slots_mutation.2.2.2.1 okBackend 1 stateInit (mkFunc 0) okBackend_preservesModes

/-- Claim C3 (amended): for an uncompiled, eligible function with a live
context, when the active-compile stack already has depth 10 or already
contains the code object of the function, _PyJIT_CompileFunction returns
UnknownError without invoking the back-end (the outcome is the same for every
back-end and only the compilation timer fires); when the guard passes, the
state handed to the back-end keeps the stack duplicate-free with depth at
most 10; for any back-end that restores the stack, the call restores the
stack, so the invariant is preserved; and concretely a re-entrant back-end
using fresh code objects receives UnknownError at nesting depth 11 while
depth 10 still succeeds.  (A back-end re-entering with the SAME code receives
UnknownError already at depth 2, not 11; see the counterexample.) -/
theorem compile_recursion_guard :
    (∀ (be be1 : Backend) (e : Nat) (s : JITState) (func : PyFunctionObject),
      s.jit_ctx.isSome = true →
      _PyJIT_IsCompiled s func = false →
      _PyJIT_OnJitList s func = true →
      (s.active_compiles.length = kMaxCompileDepth ∨ func.func_code ∈ s.active_compiles) →
      _PyJIT_CompileFunction be e s func = (PYJIT_RESULT_UNKNOWN_ERROR, recordTime e func s) ∧
      _PyJIT_CompileFunction be e s func = _PyJIT_CompileFunction be1 e s func) ∧
    (∀ (s : JITState) (func : PyFunctionObject),
      s.active_compiles.Nodup → s.active_compiles.length ≤ kMaxCompileDepth →
      ¬(s.active_compiles.length = kMaxCompileDepth ∨ func.func_code ∈ s.active_compiles) →
      (compileEnterState s func).active_compiles.Nodup ∧
      (compileEnterState s func).active_compiles.length ≤ kMaxCompileDepth) ∧
    (∀ (be : Backend) (e : Nat) (s : JITState) (func : PyFunctionObject),
      BackendStackStable be →
      (_PyJIT_CompileFunction be e s func).2.active_compiles = s.active_compiles) ∧
    ((compileChain 1 (chainFuncs 10) stateInit).1 = PYJIT_RESULT_OK ∧
      (compileChain 1 (chainFuncs 11) stateInit).1 = PYJIT_RESULT_UNKNOWN_ERROR) := by
  refine ⟨?_, ?_, ?_, by decide, by decide⟩
  · intro be be1 e s func hs hc hol hguard
    have hnn : s.jit_ctx.isNone = false := by
      cases hjc : s.jit_ctx
      · rw [hjc] at hs
        simp at hs
      · rfl
    have key : ∀ b : Backend,
        _PyJIT_CompileFunction b e s func = (PYJIT_RESULT_UNKNOWN_ERROR, recordTime e func s) := by
      intro b
      rw [_PyJIT_CompileFunction]
      rw [if_neg (by rw [hnn]; exact fun hx => by cases hx)]
      rw [if_neg (by rw [hc]; exact fun hx => by cases hx)]
      rw [if_neg (by rw [hol]; exact fun hx => by cases hx)]
      rw [if_pos hguard]
    exact ⟨key be, (key be).trans (key be1).symm⟩
  · intro s func hnd hlen hguard
    obtain ⟨hlen10, hmem⟩ := not_or.mp hguard
    constructor
    · show (s.active_compiles ++ [func.func_code]).Nodup
      simp [List.nodup_append, hnd, hmem]
    · show (s.active_compiles ++ [func.func_code]).length ≤ kMaxCompileDepth
      rw [kMaxCompileDepth] at hlen hlen10 ⊢
      simp only [List.length_append, List.length_singleton]
      omega
  · intro be e s func hst
    rw [_PyJIT_CompileFunction]
    split
    · rfl
    split
    · rfl
    split
    · rfl
    split
    · rfl
    · show ((be (compileEnterState s func) func).2.active_compiles).dropLast
          = s.active_compiles
      rw [hst]
      show (s.active_compiles ++ [func.func_code]).dropLast = s.active_compiles
      simp

/-- Claim C3, counterexample: a back-end that re-enters CompileFunction with
the same code object receives UnknownError already at nesting depth 2, where
the duplicate check fires; the original claim that such a back-end reaches 11
levels and receives UnknownError at depth 11 does not match the code (with
the same code the nest can never get past depth 1). -/
theorem compile_recursion_same_code_counterexample :
    (compileChain 1 [mkFunc 0, mkFunc 0] stateInit).1 = PYJIT_RESULT_UNKNOWN_ERROR ∧
    (compileChain 1 [mkFunc 0] stateInit).1 = PYJIT_RESULT_OK :=
  ⟨by decide, by decide⟩

/-- Witness for the C3 theorem on a concrete full stack. -/
theorem compile_recursion_guard_witness :
    _PyJIT_CompileFunction okBackend 1 stateFull (mkFunc 0)
      = (PYJIT_RESULT_UNKNOWN_ERROR, recordTime 1 (mkFunc 0) stateFull) :=
  (compile_recursion_guard.1 okBackend okBackend 1 stateFull (mkFunc 0)
    (by decide) (by decide) (by decide) (by decide)).1

end Cinder









